import Mathlib

/-!
# Verification of the Jira assistant bot (`src/main.py`)

Shallow embedding of the decision-memory store, the action dispatch table,
the button-press handler and the card renderer of the single-file Telegram
bot, together with proofs of the specified properties.

External collaborators (the Jira client, the Telegram framework, the JSON
codec of the standard library, the wall clock and the filesystem) are
modelled as oracles/parameters; the code of `src/main.py` itself is
translated definition by definition.
-/

set_option autoImplicit false

namespace JiraAssist

/-- A JSON value, the shape of the data handled by `json.dumps`/`json.loads`
and of Jira field payloads. -/
inductive JVal : Type where
  | null : JVal
  | bool (b : Bool) : JVal
  | num (n : Int) : JVal
  | str (s : String) : JVal
  | arr (xs : List JVal) : JVal
  | obj (fields : List (String × JVal)) : JVal
  deriving Repr

/-- One decision-memory record, exactly the dict built by `remember`:
`{"key": key, "action": act, "ts": <utc iso timestamp>}`. -/
structure MemRecord : Type where
  key : String
  action : String
  ts : String
  deriving Repr, DecidableEq

/-- JSON encoding of a memory record, with the field names the code writes. -/
def recordToJson (r : MemRecord) : JVal :=
  JVal.obj [("key", JVal.str r.key), ("action", JVal.str r.action), ("ts", JVal.str r.ts)]

/-- `_save_mem(m)`: the content written wholesale to `memory.json` is the
JSON array of the entire store (`json.dumps(m, ...)`). -/
def saveMem (m : List MemRecord) : JVal :=
  JVal.arr (m.map recordToJson)

/-- Python's `l[-n:]`: the last `n` elements of `l` (all of `l` when it is
shorter). -/
def takeLast {α : Type} (n : Nat) (l : List α) : List α :=
  l.drop (l.length - n)

/-- The pure store transformation of `remember(key, act)`: append the new
record, then truncate to the last 1000 entries (`_memory_cache[-1000:]`). -/
def rememberStore (store : List MemRecord) (key act ts : String) : List MemRecord :=
  takeLast 1000 (store ++ [⟨key, act, ts⟩])

/-- Full `remember(key, act)` at timestamp `ts` (the value of
`datetime.now(timezone.utc).isoformat()`): returns the new in-memory cache
and the JSON written to the backing file by `_save_mem`. -/
def remember (store : List MemRecord) (key act ts : String) :
    List MemRecord × JVal :=
  let s := rememberStore store key act ts
  (s, saveMem s)

/-- `_load_mem()`.  `readFile` is the observable state of `memory.json`:
`none` when `MEMORY_FILE.exists()` is false, `some s` for its text otherwise.
`decode` is the external `json.loads`: `none` models a raised
`JSONDecodeError` (which `_load_mem` suppresses, falling through to
`return []`). The function is total: no error escapes. -/
def loadMem (decode : String → Option JVal) (readFile : Option String) : JVal :=
  match readFile with
  | none => JVal.arr []
  | some s =>
    match decode s with
    | some v => v
    | none => JVal.arr []

/-- `examples(n)` = `random.sample(_memory_cache, min(len(_memory_cache), n))`.
The randomness of `random.sample` is modelled by the oracle `idxs`: the
distinct positions the sampler picked.  Per the `random.sample` contract the
index list is duplicate-free and has length `min(len(population), n)`;
claims quantify over every such choice. -/
def examples (store : List MemRecord) (idxs : List (Fin store.length)) :
    List MemRecord :=
  idxs.map store.get

/-- `examples` as a call against the cache: returns the sample together with
the cache afterwards (the function only reads the store). -/
def examplesCall (store : List MemRecord) (idxs : List (Fin store.length)) :
    List MemRecord × List MemRecord :=
  (examples store idxs, store)

/-! ## Configuration constants (the `os.getenv` defaults) -/

def GANCLIK_ASSIGNEE : String := "ganclikoffice@uninet.az"

def CDC_CC_ASSIGNEE : String := "cdc_cc_inbound_operations@azerconnect.az"

def CF_ONHOLD_REASON : String := "customfield_12709"

def CF_CONNECT_DATE : String := "customfield_11512"

def NAME_IN_PROGRESS : String := "In Progress"

def NAME_ON_HOLD : String := "On Hold"

/-! ## Jira wrapper and the action dispatcher -/

/-- A call into the `Jira` wrapper (`transition`, `assign`, `update`). -/
inductive JiraOp : Type where
  | transition (key name : String) (fields : List (String × JVal)) : JiraOp
  | assign (key who : String) : JiraOp
  | update (key : String) (fields : List (String × JVal)) : JiraOp
  deriving Repr

/-- A Python exception as it matters to the handlers: `button_cb` catches
`KeyError` and then `Exception`; `action_ganclik` catches `JIRAError`. -/
inductive PyExc : Type where
  | valueError (msg : String) : PyExc
  | keyError (k : String) : PyExc
  | jiraError (msg : String) : PyExc
  | other (msg : String) : PyExc
  deriving Repr, DecidableEq

/-- The external Jira server: each wrapper call either succeeds (`none`) or
raises (`some e`). -/
def Tracker : Type := JiraOp → Option PyExc

/-- The branches of the `ACTIONS` dict. -/
inductive ActionKind : Type where
  | in_progress : ActionKind
  | on_hold : ActionKind
  | ganclik : ActionKind
  | cdc_cc : ActionKind
  deriving Repr, DecidableEq

/-- The `ACTIONS` dict lookup: `ACTIONS[act]` keyed on the literal strings,
`none` meaning the lookup raises `KeyError`. -/
def ACTIONS (act : String) : Option ActionKind :=
  if act = "in_progress" then some ActionKind.in_progress
  else if act = "on_hold" then some ActionKind.on_hold
  else if act = "ganclik" then some ActionKind.ganclik
  else if act = "cdc_cc" then some ActionKind.cdc_cc
  else none

/-- The warning logged by `action_ganclik` when the connect-date update
fails (`log.warning("Не удалось установить дату подключения для %s: %s", ...)`). -/
def ganclikWarn (key msg : String) : String :=
  s!"Не удалось установить дату подключения для {key}: {msg}"

/-- Outcome of running one `ACTIONS` entry against the tracker. -/
structure ActRun : Type where
  /-- every wrapper call issued, in order, successful or not -/
  attempts : List JiraOp
  /-- the calls that took effect on the tracker -/
  applied : List JiraOp
  /-- warning log lines emitted -/
  warnings : List String
  /-- `none`: the action returned normally; `some e`: it raised `e` -/
  raised : Option PyExc
  deriving Repr

/-- Run one entry of the `ACTIONS` table.  `tomorrow` is the value of
`_tomorrow_date_str()` (UTC tomorrow, external clock).
`ganclik` is `action_ganclik`: assign, then try the connect-date update,
catching only `JIRAError` and downgrading it to a warning. -/
def runAction (tr : Tracker) (k : ActionKind) (key tomorrow : String) : ActRun :=
  match k with
  | ActionKind.in_progress =>
    let op := JiraOp.transition key NAME_IN_PROGRESS []
    match tr op with
    | none => ⟨[op], [op], [], none⟩
    | some e => ⟨[op], [], [], some e⟩
  | ActionKind.on_hold =>
    let op := JiraOp.transition key NAME_ON_HOLD
      [(CF_ONHOLD_REASON, JVal.obj [("value", JVal.str "Due to Customer")])]
    match tr op with
    | none => ⟨[op], [op], [], none⟩
    | some e => ⟨[op], [], [], some e⟩
  | ActionKind.cdc_cc =>
    let op := JiraOp.assign key CDC_CC_ASSIGNEE
    match tr op with
    | none => ⟨[op], [op], [], none⟩
    | some e => ⟨[op], [], [], some e⟩
  | ActionKind.ganclik =>
    let op1 := JiraOp.assign key GANCLIK_ASSIGNEE
    match tr op1 with
    | some e => ⟨[op1], [], [], some e⟩
    | none =>
      let op2 := JiraOp.update key [(CF_CONNECT_DATE, JVal.str tomorrow)]
      match tr op2 with
      | none => ⟨[op1, op2], [op1, op2], [], none⟩
      | some (PyExc.jiraError m) => ⟨[op1, op2], [op1], [ganclikWarn key m], none⟩
      | some e => ⟨[op1, op2], [op1], [], some e⟩

/-! ## The button-press handler -/

/-- `q.data.split(":", 1)`: `none` when the payload has no `":"` (the
2-element unpacking then raises `ValueError`); otherwise the text before the
first `":"` and everything after it. -/
def splitFirstColon (s : String) : Option (String × String) :=
  if ':' ∈ s.data then
    some (String.mk (s.data.takeWhile (fun c => c ≠ ':')),
          String.mk ((s.data.dropWhile (fun c => c ≠ ':')).tail)
         )
  else none

/-- How `button_cb` ends, as visible to the operator and the framework. -/
inductive CbOutcome : Type where
  /-- an exception escaped the handler: no message edit happened -/
  | crashed (e : PyExc) : CbOutcome
  /-- `except KeyError`: the message was edited to `"❌ Неизвестное действие: {act}"` -/
  | unknownAction (act : String) : CbOutcome
  /-- `except Exception`: the message was edited to `"❌ Jira: {e}"` -/
  | jiraFailure (e : PyExc) : CbOutcome
  /-- the message was edited to `"<b>{key}</b> → {act} ✅"` -/
  | success (key act : String) : CbOutcome
  deriving Repr, DecidableEq

/-- Everything observable about one run of `button_cb`. -/
structure CbResult : Type where
  outcome : CbOutcome
  /-- wrapper calls issued against the tracker, in order -/
  attempts : List JiraOp
  /-- wrapper calls that took effect -/
  applied : List JiraOp
  warnings : List String
  /-- the `(key, act)` arguments of each `remember` invocation -/
  rememberCalls : List (String × String)
  /-- `_memory_cache` after the run -/
  store : List MemRecord
  /-- `none`: no successful write of `memory.json`; `some v`: its new content -/
  fileWrite : Option JVal
  deriving Repr

/-- `button_cb` on payload `q.data = payload` with memory cache `store0`.
`saveRes` is the outcome of `MEMORY_FILE.write_text` inside `remember`
(`some e`: the write raises `e`).  `ts` is the clock's ISO timestamp. -/
def button_cb (tr : Tracker) (saveRes : Option PyExc) (payload : String)
    (store0 : List MemRecord) (ts tomorrow : String) : CbResult :=
  match splitFirstColon payload with
  | none =>
    -- `key, act = q.data.split(":", 1)` raises ValueError outside the try
    ⟨CbOutcome.crashed (PyExc.valueError "not enough values to unpack"),
     [], [], [], [], store0, none⟩
  | some (key, act) =>
    match ACTIONS act with
    | none =>
      -- `ACTIONS[act]` raises KeyError, caught: log + edit, store untouched
      ⟨CbOutcome.unknownAction act, [], [], [], [], store0, none⟩
    | some k =>
      let r := runAction tr k key tomorrow
      match r.raised with
      | some (PyExc.keyError _) =>
        -- a KeyError out of the action body lands in the same `except KeyError`
        ⟨CbOutcome.unknownAction act, r.attempts, r.applied, r.warnings,
         [], store0, none⟩
      | some e =>
        ⟨CbOutcome.jiraFailure e, r.attempts, r.applied, r.warnings,
         [], store0, none⟩
      | none =>
        -- dispatch succeeded: `remember(key, act)` then the success edit
        let s := rememberStore store0 key act ts
        match saveRes with
        | some e =>
          -- `_save_mem` raised: propagates out of `remember` and the handler
          ⟨CbOutcome.crashed e, r.attempts, r.applied, r.warnings,
           [(key, act)], s, none⟩
        | none =>
          ⟨CbOutcome.success key act, r.attempts, r.applied, r.warnings,
           [(key, act)], s, some (saveMem s)⟩

/-! ## Card rendering -/

/-- A Jira comment as `card` reads it: `body` and the comment author's
`displayName` (`none` when `getattr(last.author, "displayName", "?")`
falls back). -/
structure IssueComment : Type where
  body : String
  authorDisplayName : Option String
  deriving Repr, DecidableEq

/-- An issue as `card` reads it: `issue.key`, `issue.fields.status.name`
(`none` for a falsy status), and `issue.fields.comment.comments` (`[]` for a
falsy comment field or no comments). -/
structure Issue : Type where
  key : String
  status : Option String
  comments : List IssueComment
  deriving Repr, DecidableEq

/-- The status part of the card: `issue.fields.status.name if ... else "—"`. -/
def cardStatus (issue : Issue) : String :=
  issue.status.getD "—"

/-- The comment-text part of the card: `last.body[:300]`, or the `"—"`
placeholder when there is no comment. -/
def cardCommentText (issue : Issue) : String :=
  match issue.comments.getLast? with
  | none => "—"
  | some last => last.body.take 300

/-- The author part of the card: `getattr(last.author, "displayName", "?")`,
or the `"—"` placeholder when there is no comment. -/
def cardCommentAuthor (issue : Issue) : String :=
  match issue.comments.getLast? with
  | none => "—"
  | some last => last.authorDisplayName.getD "?"

/-- The card's HTML template, filled with the four computed fields. -/
def cardRender (server key st lastText lastAuth : String) : String :=
  s!"<b>📋 <a href='{server}/browse/{key}'>{key}</a></b> <i>{st}</i>\n<b>Комментарий:</b> {lastText} — <i>{lastAuth}</i>"

/-- The rendered card (`card(issue)`); `server` is `JIRA_SERVER` from the
environment. -/
def card (server : String) (issue : Issue) : String :=
  cardRender server issue.key (cardStatus issue)
    (cardCommentText issue) (cardCommentAuthor issue)

/-! ## Lemmas about the truncation `l[-1000:]` -/

theorem takeLast_length_le {α : Type} (n : Nat) (l : List α) :
    (takeLast n l).length ≤ n := by
  simp only [takeLast, List.length_drop]
  omega

theorem takeLast_takeLast_append {α : Type} (n : Nat) (l m : List α) :
    takeLast n (takeLast n l ++ m) = takeLast n (l ++ m) := by
  unfold takeLast
  rw [List.drop_append_eq_append_drop, List.drop_append_eq_append_drop,
    List.drop_drop]
  simp only [List.length_append, List.length_drop]
  congr 2 <;> omega

/-- The effect of a whole sequence of `remember` calls on the cache
(timestamps already materialised into the records). -/
def rememberFold (s0 : List MemRecord) (rs : List MemRecord) : List MemRecord :=
  rs.foldl (fun s r => rememberStore s r.key r.action r.ts) s0

theorem rememberFold_eq (rs : List MemRecord) (s0 : List MemRecord)
    (h : rs ≠ []) : rememberFold s0 rs = takeLast 1000 (s0 ++ rs) := by
  induction rs generalizing s0 with
  | nil => exact absurd rfl h
  | cons r rs ih =>
    have hstep : rememberFold s0 (r :: rs)
        = rememberFold (takeLast 1000 (s0 ++ [r])) rs := by
      simp [rememberFold, rememberStore]
    by_cases hrs : rs = []
    · subst hrs
      rw [hstep]
      simp [rememberFold]
    · rw [hstep, ih _ hrs, takeLast_takeLast_append, List.append_assoc,
        List.singleton_append]

/-! ## Claims about the decision-memory store -/

/-- Claim C1: for every sequence of `remember` calls starting from any store,
after each call the store's length never exceeds 1000 and the retained
records are exactly the most recent 1000 appended records in call order
(oldest evicted first).  `rs` is the nonempty sequence of records appended
so far ("after each call" is this statement at every nonempty prefix): the
cache is the last-1000 suffix of `s0 ++ rs`, hence of length ≤ 1000, and
once at least 1000 records have been appended it is exactly the most recent
1000 appended records in call order. -/
theorem remember_cap_invariant (s0 rs : List MemRecord) (h : rs ≠ []) :
    (rememberFold s0 rs).length ≤ 1000 ∧
    rememberFold s0 rs = takeLast 1000 (s0 ++ rs) ∧
    (1000 ≤ rs.length → rememberFold s0 rs = takeLast 1000 rs) := by
  have he := rememberFold_eq rs s0 h
  refine ⟨?_, he, ?_⟩
  · rw [he]
    exact takeLast_length_le _ _
  · intro hlen
    rw [he]
    unfold takeLast
    rw [List.drop_append_eq_append_drop]
    have h1 : s0.length ≤ (s0 ++ rs).length - 1000 := by
      simp only [List.length_append]
      omega
    have h2 : (s0 ++ rs).length - 1000 - s0.length = rs.length - 1000 := by
      simp only [List.length_append]
      omega
    rw [h2, List.drop_eq_nil_of_le h1, List.nil_append]

/-- A concrete record for witness instantiations. -/
def wRec3 : MemRecord := ⟨"T-3", "ganclik", "2025-05-21T10:00:00+00:00"⟩

/-- Witness for `remember_cap_invariant`: one `remember` call on the empty
store. -/
theorem remember_cap_invariant_witness :
    (rememberFold [] [wRec3]).length ≤ 1000 ∧
    rememberFold [] [wRec3] = takeLast 1000 ([] ++ [wRec3]) ∧
    (1000 ≤ [wRec3].length → rememberFold [] [wRec3] = takeLast 1000 [wRec3]) :=
  remember_cap_invariant [] [wRec3] (by simp)

/-- Claim C8: every `remember(key, act)` call appends a record holding the
ticket key, the action and the clock's current UTC ISO-8601 timestamp `ts`
(the new cache ends with exactly that record, the rest being the last-1000
suffix of the old cache), and persists the entire store wholesale: the file
is rewritten with the single JSON array of the whole new store. -/
theorem remember_appends_and_persists (store : List MemRecord)
    (key act ts : String) :
    (remember store key act ts).1.getLast? = some ⟨key, act, ts⟩ ∧
    (remember store key act ts).2
      = JVal.arr ((remember store key act ts).1.map recordToJson) ∧
    (remember store key act ts).1 = takeLast 1000 (store ++ [⟨key, act, ts⟩]) := by
  refine ⟨?_, by simp [remember, saveMem], by simp [remember, rememberStore]⟩
  have hfst : (remember store key act ts).1 = rememberStore store key act ts := by
    simp [remember]
  rw [hfst]
  unfold rememberStore takeLast
  rw [List.drop_append_eq_append_drop]
  have h0 : (store ++ [(⟨key, act, ts⟩ : MemRecord)]).length - 1000
      - store.length = 0 := by
    simp only [List.length_append, List.length_singleton]
    omega
  rw [h0, List.drop_zero]
  exact List.getLast?_concat _

/-- Claim C5: loading the persisted memory from a missing file, an empty
file, or a file with malformed content yields an empty store in every case;
`loadMem` is total, so no error is raised.  `hempty` and `hmal` record that
`json.loads` rejects the empty string and the malformed text `s`. -/
theorem loadMem_bad_file_empty (decode : String → Option JVal) (s : String)
    (hempty : decode "" = none) (hmal : decode s = none) :
    loadMem decode none = JVal.arr [] ∧
    loadMem decode (some "") = JVal.arr [] ∧
    loadMem decode (some s) = JVal.arr [] := by
  refine ⟨rfl, ?_, ?_⟩ <;> simp [loadMem, hempty, hmal]

/-- Witness for `loadMem_bad_file_empty` at a concrete decoder and a
concrete malformed text. -/
theorem loadMem_bad_file_empty_witness :
    loadMem (fun _ => none) none = JVal.arr [] ∧
    loadMem (fun _ => none) (some "") = JVal.arr [] ∧
    loadMem (fun _ => none) (some "][ not json") = JVal.arr [] :=
  loadMem_bad_file_empty (fun _ => none) "][ not json" rfl rfl

/-- Claim C6: for every `n ≥ 0` and store of size `k`, `examples(n)` returns
exactly `min(n, k)` records, each drawn from the store, from pairwise
distinct positions (without replacement), and the call leaves the store
unchanged.  `idxs` is the position choice of `random.sample`, constrained
exactly by that library's contract. -/
theorem examples_sample_spec (store : List MemRecord) (n : Nat)
    (idxs : List (Fin store.length))
    (hnd : idxs.Nodup) (hlen : idxs.length = min store.length n) :
    (examples store idxs).length = min n store.length ∧
    (∀ r ∈ examples store idxs, r ∈ store) ∧
    (idxs.map Fin.val).Nodup ∧
    examplesCall store idxs = (examples store idxs, store) := by
  refine ⟨?_, ?_, hnd.map Fin.val_injective, rfl⟩
  · simp [examples, hlen, Nat.min_comm]
  · intro r hr
    simp only [examples, List.mem_map] at hr
    obtain ⟨i, _, rfl⟩ := hr
    exact List.get_mem store i.1 i.2

/-- A concrete three-record store for witness instantiations. -/
def wStore : List MemRecord :=
  [⟨"T-1", "in_progress", "ts1"⟩, ⟨"T-2", "on_hold", "ts2"⟩, wRec3]

/-- A concrete duplicate-free position choice of size `min 3 2`. -/
def wIdxs : List (Fin wStore.length) := [⟨0, by simp [wStore]⟩, ⟨2, by simp [wStore]⟩]

/-- Witness for `examples_sample_spec`: sampling 2 of 3 records. -/
theorem examples_sample_spec_witness :
    (examples wStore wIdxs).length = min 2 wStore.length ∧
    (∀ r ∈ examples wStore wIdxs, r ∈ wStore) ∧
    (wIdxs.map Fin.val).Nodup ∧
    examplesCall wStore wIdxs = (examples wStore wIdxs, wStore) :=
  examples_sample_spec wStore 2 wIdxs (by decide) (by decide)

/-! ## Lemmas about payload splitting -/

theorem takeWhile_dropWhile_append {α : Type} (p : α → Bool) (a : List α)
    (x : α) (b : List α) (ha : ∀ c ∈ a, p c = true) (hx : p x = false) :
    (a ++ x :: b).takeWhile p = a ∧ (a ++ x :: b).dropWhile p = x :: b := by
  induction a with
  | nil => simp [List.takeWhile, List.dropWhile, hx]
  | cons c a ih =>
    have hc : p c = true := ha c (by simp)
    have ih2 := ih (fun d hd => ha d (by simp [hd]))
    simp only [List.cons_append, List.takeWhile, List.dropWhile, hc,
      List.append_eq]
    exact ⟨by rw [ih2.1], by rw [ih2.2]⟩

theorem splitFirstColon_no_colon (s : String) (h : ':' ∉ s.data) :
    splitFirstColon s = none := by
  simp [splitFirstColon, h]

theorem splitFirstColon_append (a b : String) (h : ':' ∉ a.data) :
    splitFirstColon (a ++ ":" ++ b) = some (a, b) := by
  have hdata : (a ++ ":" ++ b).data = a.data ++ ':' :: b.data := by
    simp [String.data_append]
  have ha : ∀ c ∈ a.data, (decide (c ≠ ':')) = true := by
    intro c hc
    simp only [decide_eq_true_eq]
    exact fun heq => h (heq ▸ hc)
  have hx : (decide ((':' : Char) ≠ ':')) = false := by simp
  have hsplit := takeWhile_dropWhile_append (fun c => decide (c ≠ ':'))
    a.data ':' b.data ha hx
  unfold splitFirstColon
  rw [hdata, if_pos (by simp), hsplit.1, hsplit.2]
  rfl

/-! ## Claims about the button handler's payload parsing -/

/-- Claim C10: a callback payload with no `":"` makes `button_cb` raise an
uncaught `ValueError` at the unpacking line, before its dispatch error
handling: no unknown-action or tracker-failure message is produced, the
store is untouched and no tracker call is made.  A payload with at least
one `":"` splits into the text before the first `":"` (the ticket key) and
everything after it (the action identifier). -/
theorem button_cb_payload_parsing (tr : Tracker) (saveRes : Option PyExc)
    (payload : String) (store0 : List MemRecord) (ts tomorrow : String) :
    (':' ∉ payload.data →
      (button_cb tr saveRes payload store0 ts tomorrow).outcome
          = CbOutcome.crashed (PyExc.valueError "not enough values to unpack") ∧
      (∀ a, (button_cb tr saveRes payload store0 ts tomorrow).outcome
          ≠ CbOutcome.unknownAction a) ∧
      (∀ e, (button_cb tr saveRes payload store0 ts tomorrow).outcome
          ≠ CbOutcome.jiraFailure e) ∧
      (button_cb tr saveRes payload store0 ts tomorrow).store = store0 ∧
      (button_cb tr saveRes payload store0 ts tomorrow).rememberCalls = [] ∧
      (button_cb tr saveRes payload store0 ts tomorrow).attempts = [] ∧
      (button_cb tr saveRes payload store0 ts tomorrow).fileWrite = none) ∧
    (∀ a b : String, ':' ∉ a.data → payload = a ++ ":" ++ b →
      splitFirstColon payload = some (a, b)) := by
  constructor
  · intro h
    have hs := splitFirstColon_no_colon payload h
    refine ⟨by simp [button_cb, hs], fun a => by simp [button_cb, hs],
      fun e => by simp [button_cb, hs], by simp [button_cb, hs],
      by simp [button_cb, hs], by simp [button_cb, hs], by simp [button_cb, hs]⟩
  · intro a b ha hp
    rw [hp]
    exact splitFirstColon_append a b ha

/-- The tracker oracle on which every wrapper call succeeds, for witnesses. -/
def trOk : Tracker := fun _ => none

/-- Witness for `button_cb_payload_parsing`: the colon-free payload `"ISP7"`
crashes with the store untouched, and `"ISP-7:x:y"` splits at the first
colon. -/
theorem button_cb_payload_parsing_witness :
    (button_cb trOk none "ISP7" [] "ts" "2025-05-22").outcome
        = CbOutcome.crashed (PyExc.valueError "not enough values to unpack") ∧
    (button_cb trOk none "ISP7" [] "ts" "2025-05-22").store = [] ∧
    splitFirstColon "ISP-7:x:y" = some ("ISP-7", "x:y") := by
  have h1 := button_cb_payload_parsing trOk none "ISP7" [] "ts" "2025-05-22"
  have h2 := button_cb_payload_parsing trOk none "ISP-7:x:y" [] "ts" "2025-05-22"
  have hno : ':' ∉ ("ISP7" : String).data := by decide
  exact ⟨(h1.1 hno).1, (h1.1 hno).2.2.2.1, h2.2 "ISP-7" "x:y" (by decide) rfl⟩

/-! ## Claims about card rendering -/

/-- Claim C9: a ticket with no comments renders with the placeholder `"—"`
for both the comment text and the author; a ticket with comments renders
the last comment's body truncated to at most 300 characters. -/
theorem card_rendering (server : String) (issue : Issue) :
    (issue.comments = [] →
      cardCommentText issue = "—" ∧ cardCommentAuthor issue = "—" ∧
      card server issue
        = cardRender server issue.key (cardStatus issue) "—" "—") ∧
    (∀ last, issue.comments.getLast? = some last →
      cardCommentText issue = last.body.take 300 ∧
      (cardCommentText issue).length ≤ 300) := by
  constructor
  · intro h
    have h1 : cardCommentText issue = "—" := by simp [cardCommentText, h]
    have h2 : cardCommentAuthor issue = "—" := by simp [cardCommentAuthor, h]
    exact ⟨h1, h2, by rw [card, h1, h2]⟩
  · intro last hlast
    have h1 : cardCommentText issue = last.body.take 300 := by
      simp [cardCommentText, hlast]
    refine ⟨h1, ?_⟩
    rw [h1, String.take_eq]
    show (last.body.data.take 300).length ≤ 300
    simp

/-- A commentless issue for witnesses. -/
def wIssueNoComments : Issue := ⟨"ISP-7", some "Open", []⟩

/-- An issue with one comment for witnesses. -/
def wIssueWithComment : Issue := ⟨"ISP-8", none, [⟨"hello", some "Alice"⟩]⟩

/-- Witness for `card_rendering` on a concrete commentless issue and a
concrete issue with one comment. -/
theorem card_rendering_witness :
    cardCommentText wIssueNoComments = "—" ∧
    cardCommentAuthor wIssueNoComments = "—" ∧
    card "https://jira.example" wIssueNoComments
      = cardRender "https://jira.example" wIssueNoComments.key
          (cardStatus wIssueNoComments) "—" "—" ∧
    cardCommentText wIssueWithComment = ("hello" : String).take 300 := by
  have hA := (card_rendering "https://jira.example" wIssueNoComments).1 rfl
  have hB := (card_rendering "https://jira.example" wIssueWithComment).2
    ⟨"hello", some "Alice"⟩ rfl
  exact ⟨hA.1, hA.2.1, hA.2.2, hB.1⟩

/-! ## Claims about the action dispatcher -/

/-- The lookup misses exactly outside the four known identifiers. -/
theorem ACTIONS_eq_none (act : String) (h1 : act ≠ "in_progress")
    (h2 : act ≠ "on_hold") (h3 : act ≠ "ganclik") (h4 : act ≠ "cdc_cc") :
    ACTIONS act = none := by
  simp [ACTIONS, h1, h2, h3, h4]

/-- No action retries a wrapper call: each entry issues each call at most
once. -/
theorem runAction_attempts_nodup (tr : Tracker) (k : ActionKind)
    (key tomorrow : String) :
    (runAction tr k key tomorrow).attempts.Nodup := by
  cases k with
  | in_progress =>
    simp only [runAction]
    cases tr (JiraOp.transition key NAME_IN_PROGRESS []) <;> simp
  | on_hold =>
    simp only [runAction]
    cases tr (JiraOp.transition key NAME_ON_HOLD
      [(CF_ONHOLD_REASON, JVal.obj [("value", JVal.str "Due to Customer")])]) <;> simp
  | cdc_cc =>
    simp only [runAction]
    cases tr (JiraOp.assign key CDC_CC_ASSIGNEE) <;> simp
  | ganclik =>
    simp only [runAction]
    cases tr (JiraOp.assign key GANCLIK_ASSIGNEE) with
    | none =>
      cases h2 : tr (JiraOp.update key [(CF_CONNECT_DATE, JVal.str tomorrow)]) with
      | none => simp
      | some e => cases e <;> simp
    | some e => simp

/-- Claim C2: dispatching any identifier outside
`{in_progress, on_hold, ganclik, cdc_cc}` yields the unknown-action
condition (its own operator message, distinct by constructor) and never the
tracker-failure condition. -/
theorem unknown_action_distinct (tr : Tracker) (saveRes : Option PyExc)
    (payload : String) (store0 : List MemRecord) (ts tomorrow key act : String)
    (hsplit : splitFirstColon payload = some (key, act))
    (h1 : act ≠ "in_progress") (h2 : act ≠ "on_hold")
    (h3 : act ≠ "ganclik") (h4 : act ≠ "cdc_cc") :
    (button_cb tr saveRes payload store0 ts tomorrow).outcome
        = CbOutcome.unknownAction act ∧
    (∀ e, (button_cb tr saveRes payload store0 ts tomorrow).outcome
        ≠ CbOutcome.jiraFailure e) := by
  have hact := ACTIONS_eq_none act h1 h2 h3 h4
  exact ⟨by simp [button_cb, hsplit, hact],
    fun e => by simp [button_cb, hsplit, hact]⟩

/-- Witness for `unknown_action_distinct` on the payload
`"ISP-1:frobnicate"`. -/
theorem unknown_action_distinct_witness :
    (button_cb trOk none "ISP-1:frobnicate" [] "ts" "2025-05-22").outcome
        = CbOutcome.unknownAction "frobnicate" ∧
    (∀ e, (button_cb trOk none "ISP-1:frobnicate" [] "ts" "2025-05-22").outcome
        ≠ CbOutcome.jiraFailure e) :=
  unknown_action_distinct trOk none "ISP-1:frobnicate" [] "ts" "2025-05-22"
    "ISP-1" "frobnicate" (by decide) (by decide) (by decide) (by decide)
    (by decide)

/-- The dispatched action succeeded: the identifier is in the table and the
try-block call `ACTIONS[act](key)` returned normally. -/
def dispatchOk (tr : Tracker) (act key tomorrow : String) : Prop :=
  ∃ k, ACTIONS act = some k ∧ (runAction tr k key tomorrow).raised = none

/-- Claim C3: a `remember(key, act)` call happens if and only if the
dispatched action succeeds — a successful dispatch is followed by exactly
one `remember` call; on any dispatch failure (unknown action or tracker
error) the store is unchanged, nothing is persisted, and no tracker call is
retried. -/
theorem dispatch_remember_sequencing (tr : Tracker) (saveRes : Option PyExc)
    (payload : String) (store0 : List MemRecord) (ts tomorrow key act : String)
    (hsplit : splitFirstColon payload = some (key, act)) :
    (dispatchOk tr act key tomorrow ↔
      (button_cb tr saveRes payload store0 ts tomorrow).rememberCalls
        = [(key, act)]) ∧
    (¬ dispatchOk tr act key tomorrow →
      (button_cb tr saveRes payload store0 ts tomorrow).rememberCalls = [] ∧
      (button_cb tr saveRes payload store0 ts tomorrow).store = store0 ∧
      (button_cb tr saveRes payload store0 ts tomorrow).fileWrite = none) ∧
    (button_cb tr saveRes payload store0 ts tomorrow).attempts.Nodup := by
  cases hact : ACTIONS act with
  | none =>
    have hno : ¬ dispatchOk tr act key tomorrow := by
      rintro ⟨k, hk, -⟩
      rw [hact] at hk
      exact Option.noConfusion hk
    refine ⟨⟨fun hd => absurd hd hno, fun hr => ?_⟩,
      fun _ => by simp [button_cb, hsplit, hact], by simp [button_cb, hsplit, hact]⟩
    simp [button_cb, hsplit, hact] at hr
  | some k =>
    cases hr : (runAction tr k key tomorrow).raised with
    | none =>
      have hok : dispatchOk tr act key tomorrow := ⟨k, hact, hr⟩
      refine ⟨⟨fun _ => ?_, fun _ => hok⟩, fun hno => absurd hok hno, ?_⟩
      · cases saveRes <;> simp [button_cb, hsplit, hact, hr]
      · cases saveRes <;>
          simpa [button_cb, hsplit, hact, hr] using
            runAction_attempts_nodup tr k key tomorrow
    | some e =>
      have hno : ¬ dispatchOk tr act key tomorrow := by
        rintro ⟨k2, hk2, hr2⟩
        rw [hact] at hk2
        cases hk2
        rw [hr] at hr2
        exact Option.noConfusion hr2
      cases e <;>
        exact ⟨⟨fun hd => absurd hd hno,
            fun hrem => by simp [button_cb, hsplit, hact, hr] at hrem⟩,
          fun _ => by simp [button_cb, hsplit, hact, hr],
          by simpa [button_cb, hsplit, hact, hr] using
            runAction_attempts_nodup tr k key tomorrow⟩

/-- Witness for `dispatch_remember_sequencing`: a successful `cdc_cc`
dispatch is remembered exactly once. -/
theorem dispatch_remember_sequencing_witness :
    (button_cb trOk none "ISP-1:cdc_cc" [] "ts" "2025-05-22").rememberCalls
        = [("ISP-1", "cdc_cc")] ∧
    (button_cb trOk none "ISP-1:cdc_cc" [] "ts" "2025-05-22").attempts.Nodup := by
  have h := dispatch_remember_sequencing trOk none "ISP-1:cdc_cc" [] "ts"
    "2025-05-22" "ISP-1" "cdc_cc" (by decide)
  exact ⟨h.1.mp ⟨ActionKind.cdc_cc, rfl, rfl⟩, h.2.2⟩

/-- Claim C4: dispatching `ganclik` where the reassignment succeeds but the
connect-date update fails with a Jira error still ends in success: exactly
one `remember(key, "ganclik")` call, exactly one warning log line, only the
reassignment applied (nothing rolled back, the failed update left
unapplied), and no operator-facing error — the operator sees the success
edit. -/
theorem ganclik_degraded_update (tr : Tracker) (payload : String)
    (store0 : List MemRecord) (ts tomorrow key m : String)
    (hsplit : splitFirstColon payload = some (key, "ganclik"))
    (hassign : tr (JiraOp.assign key GANCLIK_ASSIGNEE) = none)
    (hupdate : tr (JiraOp.update key [(CF_CONNECT_DATE, JVal.str tomorrow)])
        = some (PyExc.jiraError m)) :
    (button_cb tr none payload store0 ts tomorrow).outcome
        = CbOutcome.success key "ganclik" ∧
    (button_cb tr none payload store0 ts tomorrow).rememberCalls
        = [(key, "ganclik")] ∧
    (button_cb tr none payload store0 ts tomorrow).warnings
        = [ganclikWarn key m] ∧
    (button_cb tr none payload store0 ts tomorrow).applied
        = [JiraOp.assign key GANCLIK_ASSIGNEE] := by
  have hact : ACTIONS "ganclik" = some ActionKind.ganclik := by decide
  have hrun : runAction tr ActionKind.ganclik key tomorrow
      = ⟨[JiraOp.assign key GANCLIK_ASSIGNEE,
          JiraOp.update key [(CF_CONNECT_DATE, JVal.str tomorrow)]],
         [JiraOp.assign key GANCLIK_ASSIGNEE], [ganclikWarn key m], none⟩ := by
    simp only [runAction, hassign, hupdate]
  refine ⟨?_, ?_, ?_, ?_⟩ <;> simp [button_cb, hsplit, hact, hrun]

/-- The tracker oracle on which field updates fail with a `JIRAError` and
everything else succeeds, for witnesses. -/
def trUpdateFails : Tracker := fun op =>
  match op with
  | JiraOp.update _ _ => some (PyExc.jiraError "field locked")
  | _ => none

/-- Witness for `ganclik_degraded_update` on the payload `"ISP-9:ganclik"`
against `trUpdateFails`. -/
theorem ganclik_degraded_update_witness :
    (button_cb trUpdateFails none "ISP-9:ganclik" [] "ts" "2025-05-22").outcome
        = CbOutcome.success "ISP-9" "ganclik" ∧
    (button_cb trUpdateFails none "ISP-9:ganclik" [] "ts" "2025-05-22").rememberCalls
        = [("ISP-9", "ganclik")] ∧
    (button_cb trUpdateFails none "ISP-9:ganclik" [] "ts" "2025-05-22").warnings
        = [ganclikWarn "ISP-9" "field locked"] ∧
    (button_cb trUpdateFails none "ISP-9:ganclik" [] "ts" "2025-05-22").applied
        = [JiraOp.assign "ISP-9" GANCLIK_ASSIGNEE] :=
  ganclik_degraded_update trUpdateFails "ISP-9:ganclik" [] "ts" "2025-05-22"
    "ISP-9" "field locked" (by decide) rfl rfl

/-- Claim C7: when the dispatch has succeeded and the persistence step of
`remember` (the `memory.json` write) fails, the caller's primary action is
unaffected: the tracker calls that took effect are exactly those of the
successful-save run, the in-memory append has still happened, and the
single `remember` call stays best-effort — the raise surfaces only after
the external action has taken effect, rolling nothing back. -/
theorem remember_persistence_failure (tr : Tracker) (payload : String)
    (store0 : List MemRecord) (ts tomorrow key act : String) (k : ActionKind)
    (e : PyExc) (hsplit : splitFirstColon payload = some (key, act))
    (hact : ACTIONS act = some k)
    (hok : (runAction tr k key tomorrow).raised = none) :
    (button_cb tr (some e) payload store0 ts tomorrow).applied
        = (button_cb tr none payload store0 ts tomorrow).applied ∧
    (button_cb tr (some e) payload store0 ts tomorrow).applied
        = (runAction tr k key tomorrow).applied ∧
    (button_cb tr (some e) payload store0 ts tomorrow).rememberCalls
        = [(key, act)] ∧
    (button_cb tr (some e) payload store0 ts tomorrow).store
        = rememberStore store0 key act ts ∧
    (button_cb tr (some e) payload store0 ts tomorrow).outcome
        = CbOutcome.crashed e := by
  refine ⟨?_, ?_, ?_, ?_, ?_⟩ <;> simp [button_cb, hsplit, hact, hok]

/-- Witness for `remember_persistence_failure`: a `cdc_cc` dispatch whose
`memory.json` write raises. -/
theorem remember_persistence_failure_witness :
    (button_cb trOk (some (PyExc.other "disk full")) "ISP-1:cdc_cc" [] "ts"
        "2025-05-22").applied
      = (button_cb trOk none "ISP-1:cdc_cc" [] "ts" "2025-05-22").applied ∧
    (button_cb trOk (some (PyExc.other "disk full")) "ISP-1:cdc_cc" [] "ts"
        "2025-05-22").applied
      = (runAction trOk ActionKind.cdc_cc "ISP-1" "2025-05-22").applied ∧
    (button_cb trOk (some (PyExc.other "disk full")) "ISP-1:cdc_cc" [] "ts"
        "2025-05-22").rememberCalls = [("ISP-1", "cdc_cc")] ∧
    (button_cb trOk (some (PyExc.other "disk full")) "ISP-1:cdc_cc" [] "ts"
        "2025-05-22").store = rememberStore [] "ISP-1" "cdc_cc" "ts" ∧
    (button_cb trOk (some (PyExc.other "disk full")) "ISP-1:cdc_cc" [] "ts"
        "2025-05-22").outcome = CbOutcome.crashed (PyExc.other "disk full") :=
  remember_persistence_failure trOk "ISP-1:cdc_cc" [] "ts" "2025-05-22"
    "ISP-1" "cdc_cc" ActionKind.cdc_cc (PyExc.other "disk full") (by decide)
    (by decide) rfl

end JiraAssist
